import Mathlib

/-!
Verification of the position-lifecycle and exit-decision engine of a
copy-trading bot, as a shallow embedding in Lean.

Numbers that the JavaScript source holds as IEEE doubles are modelled as
exact rationals; the final display rounding (Number(x.toFixed(n))) is
presentational and omitted. Asynchronous store and network calls are
modelled by explicit state passing and by parameters carrying the value
an external call would produce.
-/

namespace UltimoBot

/-! ### Exit policy engine — copyMonitor.js, evaluateHybridExit

The hold-time window constants, in milliseconds. -/

def WALLET_EXIT_WINDOW : Int := 180000

def LOSS_PROTECTION_WINDOW : Int := 600000

def INDEPENDENT_MODE_TIME : Int := 600000

/-- The value object returned by exit-policy evaluation: shouldExit flag,
phase tag, optional reason tag and priority. The human-readable
description string is omitted (string formatting of numbers only). -/
structure ExitDecision where
  shouldExit : Bool
  phase : String
  reason : Option String
  priority : Option Nat
deriving DecidableEq, Repr

/-- Embedding of evaluateHybridExit from copyMonitor.js. The async
checkTrackedWalletSold call is replaced by its result: `none` models
the check returning sold = false (no sell found, or lookup error), and
`some sellTime` models sold = true with the given timestamp.
holdTime is Date.now() minus the position entry time; both are passed
explicitly as `now` and `entryTime`. -/
def evaluateHybridExit (now entryTime : Int) (pnlPercent : ℚ)
    (walletSellCheck : Option Int) : ExitDecision :=
  let holdTime := now - entryTime
  match walletSellCheck with
  | none => ⟨false, "none", none, none⟩
  | some sellTime =>
    if sellTime < entryTime then
      ⟨false, "none", none, none⟩
    else if holdTime < WALLET_EXIT_WINDOW then
      ⟨true, "phase1", some "wallet_exit_early", some 2⟩
    else if WALLET_EXIT_WINDOW ≤ holdTime ∧ holdTime < LOSS_PROTECTION_WINDOW then
      if pnlPercent < 0 then
        ⟨true, "phase2", some "wallet_exit_loss_protection", some 2⟩
      else
        ⟨false, "phase2_holding", none, none⟩
    else if INDEPENDENT_MODE_TIME ≤ holdTime then
      ⟨false, "phase3_independent", none, none⟩
    else
      ⟨false, "unknown", none, none⟩

/-! ### PnL calculator — pnlCalculator.js, class PnLCalculator -/

/-- Result of calculatePnL. Carries the top-level fields and the
breakdown fields the claims refer to, all as exact rationals. -/
structure PnLResult where
  pnlSOL : ℚ
  pnlPercent : ℚ
  priceChangePercent : ℚ
  netReceived : ℚ
  grossValue : ℚ
  sellFeeAmount : ℚ
  sellFeeTotal : ℚ
  valueAfterSellFee : ℚ
  slippageAmount : ℚ
  valueAfterSlippage : ℚ
  totalNetworkFee : ℚ
  executor : String
deriving DecidableEq, Repr

/-- The venue-specific sell-fee fraction selected in calculatePnL:
1.75% for the pumpportal relay venue, 0.3% for the jupiter aggregator,
1% generic fallback for unknown venues. -/
def sellFeeTotalFor (executor : String) : ℚ :=
  if executor = "pumpportal" then 7 / 400
  else if executor = "jupiter" then 3 / 1000
  else 1 / 100

/-- The fee pipeline of PnLCalculator.calculatePnL after input
validation, with every argument explicit. Mirrors the source order:
gross value, venue sell fee, slippage haircut (note the source takes
Math.abs of the slippage fraction), then the flat network and priority
fees; PnL is netReceived minus solSpent. -/
def calculatePnLcore (entryPrice exitPrice tokenAmount solSpent : ℚ)
    (executor : String) (slippage networkFee priorityFee : ℚ) : PnLResult :=
  let sellFeeTotal := sellFeeTotalFor executor
  let grossValue := tokenAmount * exitPrice
  let sellFeeAmount := grossValue * sellFeeTotal
  let valueAfterSellFee := grossValue - sellFeeAmount
  let slippageAmount := valueAfterSellFee * |slippage|
  let valueAfterSlippage := valueAfterSellFee - slippageAmount
  let totalNetworkFee := networkFee + priorityFee
  let netReceived := valueAfterSlippage - totalNetworkFee
  let pnlSOL := netReceived - solSpent
  let pnlPercent := pnlSOL / solSpent * 100
  let priceChangePercent := (exitPrice - entryPrice) / entryPrice * 100
  ⟨pnlSOL, pnlPercent, priceChangePercent, netReceived, grossValue,
    sellFeeAmount, sellFeeTotal, valueAfterSellFee, slippageAmount,
    valueAfterSlippage, totalNetworkFee, executor⟩

/-- The trade argument of calculatePnL. `none` models an absent (JS
undefined) field; the four required fields have no default, the other
four receive defaults inside calculatePnL exactly as the destructuring
defaults in the source do. -/
structure Trade where
  entryPrice : Option ℚ
  exitPrice : Option ℚ
  tokenAmount : Option ℚ
  solSpent : Option ℚ
  executor : Option String
  slippage : Option ℚ
  networkFee : Option ℚ
  priorityFee : Option ℚ
deriving DecidableEq, Repr

/-- JavaScript falsiness of an optional numeric field: undefined and 0
are falsy (NaN, which the claims do not exercise, is not modelled). -/
def falsyNum (x : Option ℚ) : Bool :=
  match x with
  | none => true
  | some v => v == 0

/-- Embedding of PnLCalculator.calculatePnL: validates the four
required fields (throwing on a missing or zero value), applies the
destructuring defaults executor = "pumpportal", slippage = 0,
networkFee = 0.000005, priorityFee = 0, then runs the fee pipeline. -/
def calculatePnL (trade : Trade) : Except String PnLResult :=
  if falsyNum trade.entryPrice || falsyNum trade.exitPrice ||
      falsyNum trade.tokenAmount || falsyNum trade.solSpent then
    .error "Missing required fields for PnL calculation"
  else
    .ok (calculatePnLcore (trade.entryPrice.getD 0) (trade.exitPrice.getD 0)
      (trade.tokenAmount.getD 0) (trade.solSpent.getD 0)
      (trade.executor.getD "pumpportal") (trade.slippage.getD 0)
      (trade.networkFee.getD (5 / 1000000)) (trade.priorityFee.getD 0))

/-- Result of calculateUnrealizedPnL (holdTimeMs omitted: it only
reports Date.now() minus entry time). -/
structure UnrealizedPnL where
  pnlSOL : ℚ
  pnlPercent : ℚ
  netReceived : ℚ
  grossValue : ℚ
  sellFeePercent : ℚ
  executor : String
deriving DecidableEq, Repr

/-- Embedding of PnLCalculator.calculateUnrealizedPnL. The position
numeric fields and the current price arrive as optional rationals (the
source coerces strings with Number, missing fields giving NaN, which is
falsy like 0); validation rejects any falsy one of entryPrice,
solSpent, tokenAmount, currentPrice. In the source the option defaults
are executor = "pumpportal", estimatedSlippage = 0.02,
networkFee = 0.000005, priorityFee = 0; callers here pass them
explicitly. Note this entry point has only two venue fee levels and no
Math.abs on the slippage estimate. -/
def calculateUnrealizedPnL (entryPrice solSpent tokenAmount currentPrice : Option ℚ)
    (executor : String) (estimatedSlippage networkFee priorityFee : ℚ) :
    Except String UnrealizedPnL :=
  if falsyNum entryPrice || falsyNum solSpent ||
      falsyNum tokenAmount || falsyNum currentPrice then
    .error "Missing fields for unrealized PnL"
  else
    let sellFeeTotal : ℚ := if executor = "pumpportal" then 7 / 400 else 3 / 1000
    let grossValue := tokenAmount.getD 0 * currentPrice.getD 0
    let sellFeeAmount := grossValue * sellFeeTotal
    let valueAfterFee := grossValue - sellFeeAmount
    let slippageAmount := valueAfterFee * estimatedSlippage
    let valueAfterSlippage := valueAfterFee - slippageAmount
    let totalNetworkFee := networkFee + priorityFee
    let netReceived := valueAfterSlippage - totalNetworkFee
    let pnlSOL := netReceived - solSpent.getD 0
    let pnlPercent := pnlSOL / solSpent.getD 0 * 100
    .ok ⟨pnlSOL, pnlPercent, netReceived, grossValue, sellFeeTotal, executor⟩

/-! ### Position store — riskManager.js, class PositionManager

Redis is modelled as an explicit store value: the per-token position
hashes as an association list, the open_positions set as a list of
mints, and the dated trades list as a list of records. All string
numeric fields of the redis hash are held in parsed form. -/

/-- The position hash written by openPosition and completed by
closePosition. Exit-side fields are absent (`none`) until close. -/
structure Position where
  mint : String
  symbol : String
  entryPrice : ℚ
  entryTime : Int
  solAmount : ℚ
  tokensAmount : ℚ
  status : String
  maxPrice : ℚ
  signature : String
  exitPrice : Option ℚ
  exitTime : Option Int
  pnlSOL : Option ℚ
  pnlPercent : Option ℚ
  priceChangePercent : Option ℚ
  solReceived : Option ℚ
  reason : Option String
  exitSignature : Option String
deriving DecidableEq, Repr

/-- One record rpushed to the dated trades list by closePosition: the
pre-close position hash spread first, then the exit fields. -/
structure TradeRecord where
  position : Position
  exitPrice : ℚ
  pnlSOL : ℚ
  pnlPercent : ℚ
  priceChangePercent : ℚ
  solReceived : Option ℚ
  reason : String
  closedAt : Int
deriving DecidableEq, Repr

/-- The slice of redis state the PositionManager touches. -/
structure Store where
  positions : List (String × Position)
  openPositions : List String
  trades : List TradeRecord
deriving DecidableEq, Repr

/-- redis.hgetall on the position hash of a mint. -/
def hgetallPosition (store : Store) (mint : String) : Option Position :=
  (store.positions.find? (fun kv => kv.1 == mint)).map (fun kv => kv.2)

/-- redis.hmset overwriting the whole position hash of a mint (the keyed
hash is a map, so the representation keeps one entry per mint). -/
def assocSet (l : List (String × Position)) (mint : String) (p : Position) :
    List (String × Position) :=
  (mint, p) :: l.filter (fun kv => !(kv.1 == mint))

/-- redis.sadd on the open_positions set. -/
def saddOpen (l : List String) (mint : String) : List String :=
  if l.contains mint then l else l ++ [mint]

/-- redis.srem on the open_positions set. -/
def sremOpen (l : List String) (mint : String) : List String :=
  l.filter (fun m => !(m == mint))

/-- Embedding of PositionManager.openPosition: unconditionally writes a
fresh position hash (status "open", maxPrice initialised to the entry
price, entryTime to Date.now(), here `now`) and adds the mint to the
open_positions set. The source performs no existence check before the
hmset. Returns the position object together with the new store. -/
def openPosition (store : Store) (mint symbol : String)
    (entryPrice solAmount tokensReceived : ℚ) (signature : String)
    (now : Int) : Position × Store :=
  let position : Position :=
    ⟨mint, symbol, entryPrice, now, solAmount, tokensReceived, "open",
      entryPrice, signature, none, none, none, none, none, none, none, none⟩
  (position,
    ⟨assocSet store.positions mint position,
      saddOpen store.openPositions mint, store.trades⟩)

/-- Embedding of PositionManager.updateMaxPrice: reads the hash, returns
with no write when it is absent, and hsets maxPrice only when the new
price is strictly greater than the stored one. -/
def updateMaxPrice (store : Store) (mint : String) (newPrice : ℚ) : Store :=
  match hgetallPosition store mint with
  | none => store
  | some position =>
    if newPrice > position.maxPrice then
      let updated := { position with maxPrice := newPrice }
      { store with positions := assocSet store.positions mint updated }
    else store

/-- Embedding of PositionManager.closePosition. The source guard is
`!position || !position.entryPrice`: hgetall of an absent key gives an
empty object, and every hash written by openPosition has a non-empty
entryPrice string (non-empty strings are truthy), so the guard reduces
to existence of the hash — the status field is not consulted. On a
found hash it computes PnL through PnLCalculator.calculatePnL with a
trade of only entryPrice, exitPrice, tokenAmount and solSpent (an
exception from the calculator propagates as `.error`), hmsets the
closed fields, srems the mint from open_positions and rpushes a trade
record; `null` from the not-found path is `.ok (none, store)`. -/
def closePosition (store : Store) (mint : String) (exitPrice tokensAmount : ℚ)
    (solReceived : Option ℚ) (reason signature : String) (now : Int) :
    Except String (Option PnLResult × Store) :=
  match hgetallPosition store mint with
  | none => .ok (none, store)
  | some position =>
    match calculatePnL ⟨some position.entryPrice, some exitPrice,
        some tokensAmount, some position.solAmount, none, none, none, none⟩ with
    | .error e => .error e
    | .ok pnlResult =>
      let closed : Position :=
        { position with
            status := "closed",
            exitPrice := some exitPrice,
            exitTime := some now,
            pnlSOL := some pnlResult.pnlSOL,
            pnlPercent := some pnlResult.pnlPercent,
            priceChangePercent := some pnlResult.priceChangePercent,
            solReceived := solReceived,
            reason := some reason,
            exitSignature := some signature }
      let record : TradeRecord :=
        ⟨position, exitPrice, pnlResult.pnlSOL, pnlResult.pnlPercent,
          pnlResult.priceChangePercent, solReceived, reason, now⟩
      .ok (some pnlResult,
        ⟨assocSet store.positions mint closed,
          sremOpen store.openPositions mint,
          store.trades ++ [record]⟩)

/-! ### Price service dispatch — priceService.js, PriceService.getPrice

The claims concern the pre-tier short-circuit logic of getPrice: the
failure-backoff gate and the TTL cache gate, both of which run before
any resolution tier is invoked. That prefix of the method is a pure
function of forceFresh, the failed-attempts entry, the cache entry and
the clock; its outcome is one of: return the cached quote (backoff
stale path), return the explicit skipped result, return the cache hit,
or proceed to the three resolution tiers. -/

/-- A priceCache entry: mint omitted (the cache is keyed by it). -/
structure CachedQuote where
  price : Option ℚ
  source : String
  ts : Int
deriving DecidableEq, Repr

/-- A failedAttempts entry. -/
structure FailedEntry where
  count : Nat
  lastAttempt : Int
deriving DecidableEq, Repr

def cacheMs : Int := 5000

def maxFailedAttempts : Nat := 3

def failedAttemptsResetMs : Int := 60000

/-- How a getPrice call starts: short-circuit on the backoff stale
cache, short-circuit on the explicit skipped result, return a TTL cache
hit, or invoke the resolution tiers (bonding-curve read, aggregator
quote, market-data fallback). -/
inductive GetPriceStart where
  | staleCache (cached : CachedQuote)
  | skipped
  | cacheHit (cached : CachedQuote)
  | resolveTiers
deriving DecidableEq, Repr

/-- The TTL cache gate of getPrice: guarded by !forceFresh, returns the
cached entry when it is younger than cacheMs, else proceeds to the
tiers. -/
def getPriceCacheCheck (forceFresh : Bool) (cache : Option CachedQuote)
    (now : Int) : GetPriceStart :=
  match cache with
  | some cached =>
    if forceFresh = false ∧ now - cached.ts < cacheMs then .cacheHit cached
    else .resolveTiers
  | none => .resolveTiers

/-- The pre-tier dispatch of PriceService.getPrice, in source order: the
failure-backoff block (guarded by !forceFresh) first — expired entries
are dropped and fall through, an entry at or past maxFailedAttempts
short-circuits to the stale cache or the skipped result — then the TTL
cache gate, then the tiers. -/
def getPriceDispatch (forceFresh : Bool) (failed : Option FailedEntry)
    (cache : Option CachedQuote) (now : Int) : GetPriceStart :=
  match failed with
  | some f =>
    if forceFresh = false then
      if now - f.lastAttempt > failedAttemptsResetMs then
        getPriceCacheCheck forceFresh cache now
      else if maxFailedAttempts ≤ f.count then
        match cache with
        | some cached => .staleCache cached
        | none => .skipped
      else getPriceCacheCheck forceFresh cache now
    else getPriceCacheCheck forceFresh cache now
  | none => getPriceCacheCheck forceFresh cache now

/-! ### Claims about the exit policy engine -/

/-- C1: For every open copy position with a recorded wallet-sell whose
timestamp is at or after the entry time, evaluateHybridExit decides by
hold-time window alone: under 3 minutes it exits with reason
wallet_exit_early whatever the PnL sign; in [3 min, 10 min) it exits
with reason wallet_exit_loss_protection exactly when the PnL percent is
strictly negative and holds when it is non-negative; at or beyond 10
minutes it never exits on the wallet signal. -/
theorem claim_C1 (now entryTime : Int) (pnlPercent : ℚ) (sellTime : Int)
    (hsell : entryTime ≤ sellTime) :
    (now - entryTime < WALLET_EXIT_WINDOW →
      evaluateHybridExit now entryTime pnlPercent (some sellTime) =
        ⟨true, "phase1", some "wallet_exit_early", some 2⟩) ∧
    (WALLET_EXIT_WINDOW ≤ now - entryTime → now - entryTime < LOSS_PROTECTION_WINDOW →
      ((pnlPercent < 0 →
        evaluateHybridExit now entryTime pnlPercent (some sellTime) =
          ⟨true, "phase2", some "wallet_exit_loss_protection", some 2⟩) ∧
       (0 ≤ pnlPercent →
        (evaluateHybridExit now entryTime pnlPercent (some sellTime)).shouldExit = false))) ∧
    (INDEPENDENT_MODE_TIME ≤ now - entryTime →
      (evaluateHybridExit now entryTime pnlPercent (some sellTime)).shouldExit = false) := by
  have hns : ¬ sellTime < entryTime := not_lt.mpr hsell
  refine ⟨?_, ?_, ?_⟩
  · intro h1
    simp only [evaluateHybridExit]
    rw [if_neg hns, if_pos h1]
  · intro h2 h3
    constructor
    · intro hneg
      simp only [evaluateHybridExit]
      rw [if_neg hns, if_neg (not_lt.mpr h2), if_pos ⟨h2, h3⟩, if_pos hneg]
    · intro hpos
      simp only [evaluateHybridExit]
      rw [if_neg hns, if_neg (not_lt.mpr h2), if_pos ⟨h2, h3⟩,
        if_neg (not_lt.mpr hpos)]
  · intro h4
    have hnotW : ¬ now - entryTime < WALLET_EXIT_WINDOW := by
      simp only [WALLET_EXIT_WINDOW]
      simp only [INDEPENDENT_MODE_TIME] at h4
      omega
    have hnotL : ¬ (WALLET_EXIT_WINDOW ≤ now - entryTime ∧
        now - entryTime < LOSS_PROTECTION_WINDOW) := by
      simp only [WALLET_EXIT_WINDOW, LOSS_PROTECTION_WINDOW]
      simp only [INDEPENDENT_MODE_TIME] at h4
      omega
    simp only [evaluateHybridExit]
    rw [if_neg hns, if_neg hnotW, if_neg hnotL, if_pos h4]

/-- Witness for C1 at a concrete phase-1 input: hold time 60 s, wallet
sell at the entry instant, PnL −5%. -/
theorem claim_C1_witness :
    evaluateHybridExit 60000 0 (-5) (some 0) =
      ⟨true, "phase1", some "wallet_exit_early", some 2⟩ :=
  (claim_C1 60000 0 (-5) 0 (by decide)).1 (by decide)

/-- C2: evaluateHybridExit never exits when the wallet-sell check is
inconclusive (no sell found), nor when the detected sell timestamp is
strictly earlier than the entry time, at every hold time and PnL. -/
theorem claim_C2 (now entryTime : Int) (pnlPercent : ℚ) (sellTime : Int) :
    (evaluateHybridExit now entryTime pnlPercent none).shouldExit = false ∧
    (sellTime < entryTime →
      (evaluateHybridExit now entryTime pnlPercent (some sellTime)).shouldExit = false) := by
  constructor
  · simp only [evaluateHybridExit]
  · intro h
    simp only [evaluateHybridExit]
    rw [if_pos h]

/-- Witness for C2: an inconclusive check, and a sell 50 ms before
entry, both at concrete inputs. -/
theorem claim_C2_witness :
    (evaluateHybridExit 100 0 1 none).shouldExit = false ∧
    (evaluateHybridExit 100 50 1 (some 0)).shouldExit = false :=
  ⟨(claim_C2 100 0 1 0).1, (claim_C2 100 50 1 0).2 (by decide)⟩

/-! ### Claims about the PnL calculator -/

/-- C3: the round-trip scenario: entry 0.000001, exit 0.000002, 100000
tokens, 0.1 SOL spent, relay venue, zero slippage and priority fee.
Gross value 0.2, sell-fee deduction 0.0035 (1.75% of gross),
netReceived 0.1965 − networkFee, pnlAmount 0.0965 − networkFee,
pnlPercent exactly 96.5% before the flat network fee,
priceChangePercent exactly 100%, and the 3.5-point gap between the two
equals the sell-fee deduction expressed as a percent of the SOL
spent. -/
theorem claim_C3 (networkFee : ℚ) :
    (calculatePnLcore (1/1000000) (1/500000) 100000 (1/10) "pumpportal" 0
        networkFee 0).grossValue = 1/5 ∧
    (calculatePnLcore (1/1000000) (1/500000) 100000 (1/10) "pumpportal" 0
        networkFee 0).sellFeeAmount = 7/2000 ∧
    (calculatePnLcore (1/1000000) (1/500000) 100000 (1/10) "pumpportal" 0
        networkFee 0).netReceived = 393/2000 - networkFee ∧
    (calculatePnLcore (1/1000000) (1/500000) 100000 (1/10) "pumpportal" 0
        networkFee 0).pnlSOL = 193/2000 - networkFee ∧
    (calculatePnLcore (1/1000000) (1/500000) 100000 (1/10) "pumpportal" 0
        0 0).pnlPercent = 193/2 ∧
    (calculatePnLcore (1/1000000) (1/500000) 100000 (1/10) "pumpportal" 0
        networkFee 0).priceChangePercent = 100 ∧
    (calculatePnLcore (1/1000000) (1/500000) 100000 (1/10) "pumpportal" 0
        networkFee 0).priceChangePercent -
      (calculatePnLcore (1/1000000) (1/500000) 100000 (1/10) "pumpportal" 0
        0 0).pnlPercent =
      (calculatePnLcore (1/1000000) (1/500000) 100000 (1/10) "pumpportal" 0
        networkFee 0).sellFeeAmount / (1/10) * 100 := by
  refine ⟨?_, ?_, ?_, ?_, ?_, ?_, ?_⟩ <;>
    simp only [calculatePnLcore, sellFeeTotalFor, if_pos rfl] <;>
    ring_nf <;>
    norm_num [sub_eq_add_neg]

/-- C4: both PnL entry points reject a missing or zero required numeric
field — entryPrice, exitPrice (or currentPrice), tokenAmount, solSpent
— with a thrown validation error and no result object. -/
theorem claim_C4 (trade : Trade)
    (entryPrice solSpent tokenAmount currentPrice : Option ℚ)
    (executor : String) (estimatedSlippage networkFee priorityFee : ℚ)
    (h1 : falsyNum trade.entryPrice = true ∨ falsyNum trade.exitPrice = true ∨
      falsyNum trade.tokenAmount = true ∨ falsyNum trade.solSpent = true)
    (h2 : falsyNum entryPrice = true ∨ falsyNum solSpent = true ∨
      falsyNum tokenAmount = true ∨ falsyNum currentPrice = true) :
    (∃ e, calculatePnL trade = .error e) ∧
    (∃ e, calculateUnrealizedPnL entryPrice solSpent tokenAmount currentPrice
      executor estimatedSlippage networkFee priorityFee = .error e) := by
  have hcond1 : (falsyNum trade.entryPrice || falsyNum trade.exitPrice ||
      falsyNum trade.tokenAmount || falsyNum trade.solSpent) = true := by
    rcases h1 with h | h | h | h <;> simp [h]
  have hcond2 : (falsyNum entryPrice || falsyNum solSpent ||
      falsyNum tokenAmount || falsyNum currentPrice) = true := by
    rcases h2 with h | h | h | h <;> simp [h]
  constructor
  · exact ⟨_, by unfold calculatePnL; rw [if_pos hcond1]⟩
  · exact ⟨_, by unfold calculateUnrealizedPnL; rw [if_pos hcond2]⟩

/-- Witness for C4: a zero entryPrice on the realized side, a missing
entryPrice on the unrealized side. -/
theorem claim_C4_witness :
    (∃ e, calculatePnL ⟨some 0, some 1, some 1, some 1, none, none, none, none⟩ =
      .error e) ∧
    (∃ e, calculateUnrealizedPnL none (some 1) (some 1) (some 1) "pumpportal"
      (1/50) (5/1000000) 0 = .error e) :=
  claim_C4 ⟨some 0, some 1, some 1, some 1, none, none, none, none⟩
    none (some 1) (some 1) (some 1) "pumpportal" (1/50) (5/1000000) 0
    (Or.inl (by decide)) (Or.inl (by decide))

/-- C5 counterexample: the claim says a slippage fraction ≤ 0 leaves the
post-fee value untouched, but the source multiplies by Math.abs of the
fraction, so slippage −1/2 (≤ 0) still halves the post-fee value. -/
theorem claim_C5_counterexample :
    ¬ ((calculatePnLcore 1 1 1 1 "pumpportal" (-(1/2)) 0 0).netReceived =
      (calculatePnLcore 1 1 1 1 "pumpportal" (-(1/2)) 0 0).grossValue *
        (1 - (calculatePnLcore 1 1 1 1 "pumpportal" (-(1/2)) 0 0).sellFeeTotal)
        - 0 - 0) := by
  have habs : |(-(1/2) : ℚ)| = 1/2 := by
    rw [abs_neg]
    exact abs_of_nonneg (by norm_num)
  simp only [calculatePnLcore, sellFeeTotalFor, if_pos rfl, habs]
  norm_num

/-- C5 as amended: the slippage haircut multiplies the post-fee value by
(1 − |slippage|) for every supplied fraction — so a negative fraction is
haircut by its absolute value, not ignored — and for a positive
fraction this is the factor (1 − slippage) of the claim. -/
theorem claim_C5_amended (entryPrice exitPrice tokenAmount solSpent : ℚ)
    (executor : String) (slippage networkFee priorityFee : ℚ) :
    (calculatePnLcore entryPrice exitPrice tokenAmount solSpent executor
        slippage networkFee priorityFee).netReceived =
      tokenAmount * exitPrice * (1 - sellFeeTotalFor executor) * (1 - |slippage|)
        - networkFee - priorityFee ∧
    (0 < slippage →
      (calculatePnLcore entryPrice exitPrice tokenAmount solSpent executor
          slippage networkFee priorityFee).netReceived =
        tokenAmount * exitPrice * (1 - sellFeeTotalFor executor) * (1 - slippage)
          - networkFee - priorityFee) := by
  constructor
  · simp only [calculatePnLcore]
    ring
  · intro h
    simp only [calculatePnLcore]
    rw [abs_of_pos h]
    ring

/-- Witness for C5 as amended, at a concrete positive slippage. -/
theorem claim_C5_witness :
    (calculatePnLcore 1 1 1 1 "pumpportal" (1/2) 0 0).netReceived =
      1 * 1 * (1 - sellFeeTotalFor "pumpportal") * (1 - 1/2) - 0 - 0 :=
  (claim_C5_amended 1 1 1 1 "pumpportal" (1/2) 0 0).2 (by norm_num)

/-! ### Helper lemmas for the store -/

theorem find_assocSet (l : List (String × Position)) (mint : String) (p : Position) :
    ((assocSet l mint p).find? (fun kv => kv.1 == mint)).map (fun kv => kv.2) =
      some p := by
  simp [assocSet]

theorem countP_assocSet (l : List (String × Position)) (mint : String) (p : Position) :
    (assocSet l mint p).countP (fun kv => kv.1 == mint) = 1 := by
  have h0 : (l.filter (fun kv => !(kv.1 == mint))).countP
      (fun kv => kv.1 == mint) = 0 := by
    rw [List.countP_eq_zero]
    intro a ha
    have hmem := List.of_mem_filter ha
    simp at hmem ⊢
    exact hmem
  simp [assocSet, List.countP_cons, h0]

theorem count_saddOpen (l : List String) (mint : String)
    (h : l.count mint ≤ 1) : (saddOpen l mint).count mint = 1 := by
  unfold saddOpen
  by_cases hc : l.contains mint
  · rw [if_pos hc]
    have hmem : mint ∈ l := by simpa using hc
    have h1 : 0 < l.count mint := List.count_pos_iff.mpr hmem
    omega
  · rw [if_neg hc]
    have hmem : mint ∉ l := by simpa using hc
    have h0 : l.count mint = 0 := List.count_eq_zero.mpr hmem
    simp [List.count_append, h0]

/-- calculatePnL on the four-field trade closePosition builds: when all
four required values are non-zero it succeeds and the destructuring
defaults fix the venue to "pumpportal", the slippage to 0, the network
fee to 0.000005 and the priority fee to 0. -/
theorem calculatePnL_defaults (entryPrice exitPrice tokenAmount solSpent : ℚ)
    (h1 : entryPrice ≠ 0) (h2 : exitPrice ≠ 0) (h3 : tokenAmount ≠ 0)
    (h4 : solSpent ≠ 0) :
    calculatePnL ⟨some entryPrice, some exitPrice, some tokenAmount, some solSpent,
        none, none, none, none⟩ =
      .ok (calculatePnLcore entryPrice exitPrice tokenAmount solSpent
        "pumpportal" 0 (5/1000000) 0) := by
  simp [calculatePnL, falsyNum, h1, h2, h3, h4]

theorem updateMaxPrice_mono (store : Store) (mint : String) (newPrice : ℚ)
    (position : Position) (h : hgetallPosition store mint = some position) :
    ∃ position2, hgetallPosition (updateMaxPrice store mint newPrice) mint =
      some position2 ∧ position.maxPrice ≤ position2.maxPrice := by
  simp only [updateMaxPrice, h]
  by_cases hc : newPrice > position.maxPrice
  · rw [if_pos hc]
    refine ⟨{ position with maxPrice := newPrice }, ?_, le_of_lt hc⟩
    simp only [hgetallPosition]
    exact find_assocSet store.positions mint _
  · rw [if_neg hc]
    exact ⟨position, h, le_refl _⟩

/-- The monitoring loop applying a sequence of observed prices through
updateMaxPrice, oldest first. -/
def applyUpdates (store : Store) (mint : String) (prices : List ℚ) : Store :=
  prices.foldl (fun s price => updateMaxPrice s mint price) store

theorem applyUpdates_mono (prices : List ℚ) (store : Store) (mint : String)
    (position : Position) (h : hgetallPosition store mint = some position) :
    ∃ position2, hgetallPosition (applyUpdates store mint prices) mint =
      some position2 ∧ position.maxPrice ≤ position2.maxPrice := by
  induction prices generalizing store position with
  | nil => exact ⟨position, h, le_refl _⟩
  | cons price rest ih =>
    obtain ⟨p1, h1, hle1⟩ := updateMaxPrice_mono store mint price position h
    obtain ⟨p2, h2, hle2⟩ := ih _ _ h1
    exact ⟨p2, by simpa [applyUpdates] using h2, le_trans hle1 hle2⟩

/-! ### Concrete fixtures used by witnesses and counterexamples -/

def emptyStore : Store := ⟨[], [], []⟩

def examplePosition : Position :=
  ⟨"MINTX", "TKN", 1/1000000, 0, 1/10, 100000, "open", 1/1000000, "sig",
    none, none, none, none, none, none, none, none⟩

def exampleStore : Store := ⟨[("MINTX", examplePosition)], ["MINTX"], []⟩

def examplePositionClosed : Position :=
  ⟨"MINTX", "TKN", 1/1000000, 0, 1/10, 100000, "closed", 1/500000, "sig",
    some (1/500000), some 250000, some (19/200), some (193/2), some 100,
    some (1/5), some "take_profit", some "sig2"⟩

def exampleStoreClosed : Store := ⟨[("MINTX", examplePositionClosed)], [], []⟩

/-! ### Claims about the position store -/

/-- C6 counterexample: the claim says a second close on an
already-closed position returns null and leaves the store unchanged,
but the source guard only checks that the hash exists — on a store
holding a closed position, closePosition returns a PnL result and
appends a second trade-history record. -/
theorem claim_C6_counterexample :
    examplePositionClosed.status = "closed" ∧
    (closePosition exampleStoreClosed "MINTX" (1/500000) 100000 (some (1/5))
        "manual" "sig3" 600000).toOption ≠ some (none, exampleStoreClosed) ∧
    ((closePosition exampleStoreClosed "MINTX" (1/500000) 100000 (some (1/5))
        "manual" "sig3" 600000).toOption.map
      (fun r => (r.1.isSome, r.2.trades.length))) = some (true, 1) := by
  have hlook : hgetallPosition exampleStoreClosed "MINTX" =
      some examplePositionClosed := rfl
  have hne1 : examplePositionClosed.entryPrice ≠ 0 := by
    norm_num [examplePositionClosed]
  have hne2 : (1/500000 : ℚ) ≠ 0 := by norm_num
  have hne3 : (100000 : ℚ) ≠ 0 := by norm_num
  have hne4 : examplePositionClosed.solAmount ≠ 0 := by
    norm_num [examplePositionClosed]
  refine ⟨rfl, ?_, ?_⟩ <;>
    simp only [closePosition, hlook,
      calculatePnL_defaults _ _ _ _ hne1 hne2 hne3 hne4, Except.toOption] <;>
    simp [exampleStoreClosed]

/-- C6 as amended: closePosition fails cleanly — returning null with
the store untouched — exactly when no position hash is stored for the
token id; when a hash exists, even one whose status is already
"closed", the close proceeds: PnL is recomputed, the hash rewritten
and a further record appended to the trade-history list. -/
theorem claim_C6_amended (store : Store) (mint : String)
    (exitPrice tokensAmount : ℚ) (solReceived : Option ℚ)
    (reason signature : String) (now : Int) :
    (hgetallPosition store mint = none →
      closePosition store mint exitPrice tokensAmount solReceived reason
        signature now = .ok (none, store)) ∧
    (∀ position, hgetallPosition store mint = some position →
      position.entryPrice ≠ 0 → exitPrice ≠ 0 → tokensAmount ≠ 0 →
      position.solAmount ≠ 0 →
      ∃ pnlResult store2,
        closePosition store mint exitPrice tokensAmount solReceived reason
          signature now = .ok (some pnlResult, store2) ∧
        store2.trades = store.trades ++ [⟨position, exitPrice, pnlResult.pnlSOL,
          pnlResult.pnlPercent, pnlResult.priceChangePercent, solReceived,
          reason, now⟩]) := by
  constructor
  · intro h
    simp only [closePosition, h]
  · intro position h h1 h2 h3 h4
    simp only [closePosition, h, calculatePnL_defaults _ _ _ _ h1 h2 h3 h4]
    exact ⟨_, _, rfl, rfl⟩

/-- Witness for C6 as amended: a close on an empty store returns null
and changes nothing; a close on a stored open position succeeds and
appends its record. -/
theorem claim_C6_witness :
    closePosition emptyStore "MINTX" 1 1 none "r" "s" 0 = .ok (none, emptyStore) ∧
    (∃ pnlResult store2,
      closePosition exampleStore "MINTX" (1/500000) 100000 (some (1/5))
        "take_profit" "sig2" 300000 = .ok (some pnlResult, store2) ∧
      store2.trades = exampleStore.trades ++ [⟨examplePosition, 1/500000,
        pnlResult.pnlSOL, pnlResult.pnlPercent, pnlResult.priceChangePercent,
        some (1/5), "take_profit", 300000⟩]) :=
  ⟨(claim_C6_amended emptyStore "MINTX" 1 1 none "r" "s" 0).1 rfl,
   (claim_C6_amended exampleStore "MINTX" (1/500000) 100000 (some (1/5))
      "take_profit" "sig2" 300000).2 examplePosition rfl
     (by norm_num [examplePosition]) (by norm_num) (by norm_num)
     (by norm_num [examplePosition])⟩

def exampleStoreTwoOpens : Store :=
  (openPosition (openPosition emptyStore "MINTX" "TKN" 1 2 1000 "sig1" 0).2
    "MINTX" "TKN" 3 4 500 "sig2" 50).2

/-- C7 counterexample: the claim says a duplicate open is rejected and
the existing record left unchanged, but the source performs no check —
a second openPosition for the same token id records the new entry,
replacing the stored entryPrice 1 and entryTime 0 with 3 and 50. -/
theorem claim_C7_counterexample :
    (hgetallPosition exampleStoreTwoOpens "MINTX").map Position.entryPrice ≠
      some 1 ∧
    (hgetallPosition exampleStoreTwoOpens "MINTX").map Position.entryPrice =
      some 3 ∧
    (hgetallPosition exampleStoreTwoOpens "MINTX").map Position.entryTime =
      some 50 := by
  refine ⟨?_, rfl, rfl⟩
  intro h
  simp only [exampleStoreTwoOpens, openPosition, emptyStore] at h
  simp [hgetallPosition, assocSet] at h

/-- C7 as amended: openPosition does not reject a duplicate open — it
unconditionally overwrites the stored hash for the token id and re-adds
the id to the open set (set-add being idempotent). The at-most-one-open-
position-per-token-id invariant still holds, but by overwriting: after
any open the store holds exactly one hash and one open-set entry for the
id, carrying the new entry data. -/
theorem claim_C7_amended (store : Store) (mint symbol : String)
    (entryPrice solAmount tokensReceived : ℚ) (signature : String) (now : Int)
    (hopen : store.openPositions.count mint ≤ 1) :
    hgetallPosition (openPosition store mint symbol entryPrice solAmount
        tokensReceived signature now).2 mint =
      some (openPosition store mint symbol entryPrice solAmount
        tokensReceived signature now).1 ∧
    (openPosition store mint symbol entryPrice solAmount tokensReceived
        signature now).1 =
      ⟨mint, symbol, entryPrice, now, solAmount, tokensReceived, "open",
        entryPrice, signature, none, none, none, none, none, none, none, none⟩ ∧
    (openPosition store mint symbol entryPrice solAmount tokensReceived
        signature now).2.positions.countP (fun kv => kv.1 == mint) = 1 ∧
    (openPosition store mint symbol entryPrice solAmount tokensReceived
        signature now).2.openPositions.count mint = 1 := by
  refine ⟨?_, rfl, ?_, ?_⟩
  · simp only [openPosition, hgetallPosition]
    exact find_assocSet store.positions mint _
  · simp only [openPosition]
    exact countP_assocSet store.positions mint _
  · simp only [openPosition]
    exact count_saddOpen store.openPositions mint hopen

/-- Witness for C7 as amended, opening on the empty store. -/
theorem claim_C7_witness :
    emptyStore.openPositions.count "MINTX" ≤ 1 ∧
    (hgetallPosition (openPosition emptyStore "MINTX" "TKN" 1 2 1000 "sig1"
        0).2 "MINTX" =
      some (openPosition emptyStore "MINTX" "TKN" 1 2 1000 "sig1" 0).1 ∧
    (openPosition emptyStore "MINTX" "TKN" 1 2 1000 "sig1" 0).1 =
      ⟨"MINTX", "TKN", 1, 0, 2, 1000, "open", 1, "sig1",
        none, none, none, none, none, none, none, none⟩ ∧
    (openPosition emptyStore "MINTX" "TKN" 1 2 1000 "sig1"
        0).2.positions.countP (fun kv => kv.1 == "MINTX") = 1 ∧
    (openPosition emptyStore "MINTX" "TKN" 1 2 1000 "sig1"
        0).2.openPositions.count "MINTX" = 1) :=
  ⟨by decide,
   claim_C7_amended emptyStore "MINTX" "TKN" 1 2 1000 "sig1" 0 (by decide)⟩

/-- C9: updateMaxPrice never lowers the stored high-water mark: a price
at or below the stored maxPrice leaves the store unchanged, a strictly
greater price replaces maxPrice with it, and across any sequence of
updates the stored maxPrice is monotonically non-decreasing. -/
theorem claim_C9 (store : Store) (mint : String) (newPrice : ℚ)
    (position : Position) (h : hgetallPosition store mint = some position) :
    (newPrice ≤ position.maxPrice → updateMaxPrice store mint newPrice = store) ∧
    (position.maxPrice < newPrice →
      hgetallPosition (updateMaxPrice store mint newPrice) mint =
        some { position with maxPrice := newPrice }) ∧
    (∀ prices : List ℚ, ∃ position2,
      hgetallPosition (applyUpdates store mint prices) mint = some position2 ∧
      position.maxPrice ≤ position2.maxPrice) := by
  refine ⟨?_, ?_, ?_⟩
  · intro hle
    simp only [updateMaxPrice, h]
    rw [if_neg (not_lt.mpr hle)]
  · intro hlt
    simp only [updateMaxPrice, h]
    rw [if_pos hlt]
    simp only [hgetallPosition]
    exact find_assocSet store.positions mint _
  · intro prices
    exact applyUpdates_mono prices store mint position h

/-- Witness for C9 on the example open position: an equal price is a
no-op and a higher price raises the mark. -/
theorem claim_C9_witness :
    hgetallPosition exampleStore "MINTX" = some examplePosition ∧
    (examplePosition.maxPrice ≤ examplePosition.maxPrice →
      updateMaxPrice exampleStore "MINTX" examplePosition.maxPrice = exampleStore) ∧
    (examplePosition.maxPrice < 2 →
      hgetallPosition (updateMaxPrice exampleStore "MINTX" 2) "MINTX" =
        some { examplePosition with maxPrice := 2 }) :=
  ⟨rfl,
   (claim_C9 exampleStore "MINTX" examplePosition.maxPrice examplePosition rfl).1,
   (claim_C9 exampleStore "MINTX" 2 examplePosition rfl).2.1⟩

/-- C10: whenever closePosition succeeds, the PnL figures it stores on
the hash and appends to the trade history come from
PnLCalculator.calculatePnL invoked with only entryPrice, exitPrice,
tokenAmount and solSpent — hence with the default relay venue
"pumpportal" (1.75% sell fee), zero slippage, the default 0.000005
network fee and zero priority fee, whatever venue executed the sell —
while the solReceived actually obtained is stored verbatim and never
enters the recorded PnL figures. -/
theorem claim_C10 (store : Store) (mint : String) (exitPrice tokensAmount : ℚ)
    (solReceived : Option ℚ) (reason signature : String) (now : Int)
    (position : Position) (h : hgetallPosition store mint = some position)
    (h1 : position.entryPrice ≠ 0) (h2 : exitPrice ≠ 0) (h3 : tokensAmount ≠ 0)
    (h4 : position.solAmount ≠ 0) :
    ∃ store2,
      closePosition store mint exitPrice tokensAmount solReceived reason
          signature now =
        .ok (some (calculatePnLcore position.entryPrice exitPrice tokensAmount
          position.solAmount "pumpportal" 0 (5/1000000) 0), store2) ∧
      (hgetallPosition store2 mint).map Position.pnlSOL =
        some (some (calculatePnLcore position.entryPrice exitPrice tokensAmount
          position.solAmount "pumpportal" 0 (5/1000000) 0).pnlSOL) ∧
      (hgetallPosition store2 mint).map Position.pnlPercent =
        some (some (calculatePnLcore position.entryPrice exitPrice tokensAmount
          position.solAmount "pumpportal" 0 (5/1000000) 0).pnlPercent) ∧
      (hgetallPosition store2 mint).map Position.priceChangePercent =
        some (some (calculatePnLcore position.entryPrice exitPrice tokensAmount
          position.solAmount "pumpportal" 0 (5/1000000) 0).priceChangePercent) ∧
      (hgetallPosition store2 mint).map Position.solReceived = some solReceived ∧
      store2.trades.getLast? = some ⟨position, exitPrice,
        (calculatePnLcore position.entryPrice exitPrice tokensAmount
          position.solAmount "pumpportal" 0 (5/1000000) 0).pnlSOL,
        (calculatePnLcore position.entryPrice exitPrice tokensAmount
          position.solAmount "pumpportal" 0 (5/1000000) 0).pnlPercent,
        (calculatePnLcore position.entryPrice exitPrice tokensAmount
          position.solAmount "pumpportal" 0 (5/1000000) 0).priceChangePercent,
        solReceived, reason, now⟩ := by
  simp only [closePosition, h, calculatePnL_defaults _ _ _ _ h1 h2 h3 h4]
  refine ⟨_, rfl, ?_, ?_, ?_, ?_, ?_⟩ <;>
    simp [hgetallPosition, find_assocSet, List.getLast?_append]

/-- Witness for C10 on the example open position with a solReceived that
differs from the computed netReceived. -/
theorem claim_C10_witness :
    hgetallPosition exampleStore "MINTX" = some examplePosition ∧
    ∃ store2,
      closePosition exampleStore "MINTX" (1/500000) 100000 (some (3/10))
          "take_profit" "sig2" 300000 =
        .ok (some (calculatePnLcore examplePosition.entryPrice (1/500000) 100000
          examplePosition.solAmount "pumpportal" 0 (5/1000000) 0), store2) ∧
      (hgetallPosition store2 "MINTX").map Position.pnlSOL =
        some (some (calculatePnLcore examplePosition.entryPrice (1/500000) 100000
          examplePosition.solAmount "pumpportal" 0 (5/1000000) 0).pnlSOL) ∧
      (hgetallPosition store2 "MINTX").map Position.pnlPercent =
        some (some (calculatePnLcore examplePosition.entryPrice (1/500000) 100000
          examplePosition.solAmount "pumpportal" 0 (5/1000000) 0).pnlPercent) ∧
      (hgetallPosition store2 "MINTX").map Position.priceChangePercent =
        some (some (calculatePnLcore examplePosition.entryPrice (1/500000) 100000
          examplePosition.solAmount "pumpportal" 0 (5/1000000) 0).priceChangePercent) ∧
      (hgetallPosition store2 "MINTX").map Position.solReceived =
        some (some (3/10)) ∧
      store2.trades.getLast? = some ⟨examplePosition, 1/500000,
        (calculatePnLcore examplePosition.entryPrice (1/500000) 100000
          examplePosition.solAmount "pumpportal" 0 (5/1000000) 0).pnlSOL,
        (calculatePnLcore examplePosition.entryPrice (1/500000) 100000
          examplePosition.solAmount "pumpportal" 0 (5/1000000) 0).pnlPercent,
        (calculatePnLcore examplePosition.entryPrice (1/500000) 100000
          examplePosition.solAmount "pumpportal" 0 (5/1000000) 0).priceChangePercent,
        some (3/10), "take_profit", 300000⟩ :=
  ⟨rfl, claim_C10 exampleStore "MINTX" (1/500000) 100000 (some (3/10))
    "take_profit" "sig2" 300000 examplePosition rfl
    (by norm_num [examplePosition]) (by norm_num) (by norm_num)
    (by norm_num [examplePosition])⟩

/-! ### Claims about the price service dispatch -/

/-- C8 counterexample: the claim says a call with forceFresh = true
still short-circuits on the failure backoff, but the backoff block is
guarded by !forceFresh in the source — with the counter at 3 inside the
window and even a fresh cache entry present, a forceFresh call proceeds
straight to the resolution tiers. -/
theorem claim_C8_counterexample :
    getPriceDispatch true (some ⟨3, 1000⟩) (some ⟨some 1, "pump.fun_raw", 1000⟩)
      1000 = .resolveTiers ∧
    getPriceDispatch true (some ⟨3, 1000⟩) none 1000 = .resolveTiers := by
  constructor <;> rfl

/-- C8 as amended: once the failure counter for a token id has reached
3 within the 60-second window, a getPrice call with forceFresh = false
short-circuits without invoking any resolution tier — to the stale
cached quote if one exists, else to the explicit skipped result — while
forceFresh = true bypasses both the TTL cache check and the failure
backoff and always proceeds to the resolution tiers. -/
theorem claim_C8_amended (failed : FailedEntry) (cache : Option CachedQuote)
    (now : Int) (hcount : maxFailedAttempts ≤ failed.count)
    (hwin : now - failed.lastAttempt ≤ failedAttemptsResetMs) :
    (∀ cached, cache = some cached →
      getPriceDispatch false (some failed) cache now = .staleCache cached) ∧
    (cache = none → getPriceDispatch false (some failed) cache now = .skipped) ∧
    (∀ f c, getPriceDispatch true f c now = .resolveTiers) := by
  refine ⟨?_, ?_, ?_⟩
  · intro cached hc
    subst hc
    simp only [getPriceDispatch]
    rw [if_pos trivial, if_neg (not_lt.mpr hwin), if_pos hcount]
  · intro hc
    subst hc
    simp only [getPriceDispatch]
    rw [if_pos trivial, if_neg (not_lt.mpr hwin), if_pos hcount]
  · intro f c
    cases f with
    | none =>
      cases c with
      | none => rfl
      | some cached => rfl
    | some fe =>
      cases c with
      | none => rfl
      | some cached => rfl

/-- Witness for C8 as amended: counter 3, last attempt now, stale cache
present or absent. -/
theorem claim_C8_witness :
    maxFailedAttempts ≤ (3 : Nat) ∧ (1000 : Int) - 1000 ≤ failedAttemptsResetMs ∧
    getPriceDispatch false (some ⟨3, 1000⟩) (some ⟨some 1, "pump.fun_raw", 400⟩)
      1000 = .staleCache ⟨some 1, "pump.fun_raw", 400⟩ ∧
    getPriceDispatch false (some ⟨3, 1000⟩) none 1000 = .skipped :=
  ⟨by decide, by decide,
   (claim_C8_amended ⟨3, 1000⟩ (some ⟨some 1, "pump.fun_raw", 400⟩) 1000
      (by decide) (by decide)).1 _ rfl,
   (claim_C8_amended ⟨3, 1000⟩ none 1000 (by decide) (by decide)).2.1 rfl⟩

end UltimoBot
